import Mathlib

/-!
Verification of the remittance orchestrator front-end.

Part 1 models the on-chain `RemittanceSimulator` contract
(src/unnamed/part_000): the fee/rate state, the `updateFees` /
`updateExchangeRate` administration entry points, the three settlement
stages `buyUSDC`, `swapUSDCtoEURC`, `sellEURC`, their composition
`processRemittance`, and the pure estimator
`calculateRemittanceEstimate`.  Solidity `uint256` arithmetic is modelled
over `Nat`; a `require`-guarded revert is modelled as `Option.none`
(reverts leave state unchanged, which `none` captures since no new state
is produced).  Token `transferFrom` / `mint` / `burn` calls on the mock
stablecoins are assumed to succeed, as the claims under scrutiny do.

Part 2 models the dashboard orchestrator (src/pages/dashboard.tsx): the
step executor's outcome classification, the confirmation-timeout fallback
lookup, the history ledger, and the flow sequencer's step clamping.
-/

namespace RemittanceSimulator

/-- Contract storage relevant to fees and rates (part_000 lines 155-160).
Initial values are the field initialisers. -/
structure ContractState where
  usdToEurRate : Nat
  buyFeeBps : Nat
  swapFeeBps : Nat
  sellFeeBps : Nat
deriving DecidableEq, Repr

/-- State after the constructor: rate 920000, fees 100/50/100 bps. -/
def initState : ContractState :=
  { usdToEurRate := 920000, buyFeeBps := 100, swapFeeBps := 50, sellFeeBps := 100 }

/-- Model of `updateExchangeRate` (lines 218-220): owner sets a new rate, unguarded. -/
def updateExchangeRate (s : ContractState) (newRate : Nat) : ContractState :=
  { s with usdToEurRate := newRate }

/-- Model of `updateFees` (lines 228-240): three sequential `require(_ <= 1000)`
checks; on any violation the call reverts (`none`) and storage is
untouched; otherwise all three bps fields are replaced. -/
def updateFees (s : ContractState) (newBuyFeeBps newSwapFeeBps newSellFeeBps : Nat) :
    Option ContractState :=
  if 1000 < newBuyFeeBps then none
  else if 1000 < newSwapFeeBps then none
  else if 1000 < newSellFeeBps then none
  else some { s with
    buyFeeBps := newBuyFeeBps,
    swapFeeBps := newSwapFeeBps,
    sellFeeBps := newSellFeeBps }

/-- States reachable from deployment through the owner entry points. -/
inductive Reachable : ContractState → Prop
  | init : Reachable initState
  | rate {s : ContractState} (r : Nat) : Reachable s → Reachable (updateExchangeRate s r)
  | fees {s s' : ContractState} {a b c : Nat} :
      Reachable s → updateFees s a b c = some s' → Reachable s'

/-- Model of `buyUSDC` (lines 248-269): requires a positive amount, deducts the buy
fee with truncating division, mints the remainder.  The zero-address check
and the mint are external concerns assumed to succeed. -/
def buyUSDC (s : ContractState) (usdAmount : Nat) : Option Nat :=
  if usdAmount = 0 then none
  else some (usdAmount - usdAmount * s.buyFeeBps / 10000)

/-- Model of `swapUSDCtoEURC` (lines 277-304): requires a positive amount, converts
at the fixed-point rate, deducts the swap fee.  The `transferFrom` and
`mint` are assumed to succeed. -/
def swapUSDCtoEURC (s : ContractState) (usdcAmount : Nat) : Option Nat :=
  if usdcAmount = 0 then none
  else
    let rawEurcAmount := usdcAmount * s.usdToEurRate / 1000000
    some (rawEurcAmount - rawEurcAmount * s.swapFeeBps / 10000)

/-- Model of `sellEURC` (lines 313-338): requires a positive amount, deducts the
sell fee, burns the EURC.  Transfer/burn assumed to succeed, and the
recipient string is assumed non-empty. -/
def sellEURC (s : ContractState) (eurcAmount : Nat) : Option Nat :=
  if eurcAmount = 0 then none
  else some (eurcAmount - eurcAmount * s.sellFeeBps / 10000)

/-- Model of `processRemittance` (lines 348-422): chains buy, swap, sell; the
returned `finalEurAmount` is the sell stage's output.  Record/gas
bookkeeping does not affect the returned amount and is omitted. -/
def processRemittance (s : ContractState) (usdAmount : Nat) : Option Nat :=
  (buyUSDC s usdAmount).bind fun usdcAmount =>
    (swapUSDCtoEURC s usdcAmount).bind fun eurcAmount =>
      sellEURC s eurcAmount

/-- The triple returned by `calculateRemittanceEstimate`. -/
structure EstimateResult where
  usdcAfterFee : Nat
  eurcAfterSwap : Nat
  eurFinal : Nat
deriving DecidableEq, Repr

/-- Model of `calculateRemittanceEstimate` (lines 450-466), verbatim pipeline:
buy fee, then rate conversion, then swap fee, then sell fee, every
division truncating. -/
def calculateRemittanceEstimate (s : ContractState) (usdAmount : Nat) : EstimateResult :=
  let usdcAfterFee := usdAmount - usdAmount * s.buyFeeBps / 10000
  let rawEurcAmount := usdcAfterFee * s.usdToEurRate / 1000000
  let eurcAfterSwap := rawEurcAmount - rawEurcAmount * s.swapFeeBps / 10000
  let eurFinal := eurcAfterSwap - eurcAfterSwap * s.sellFeeBps / 10000
  { usdcAfterFee := usdcAfterFee, eurcAfterSwap := eurcAfterSwap, eurFinal := eurFinal }

/-- The intermediate `rawEurcAmount` of line 459, exposed for the claims
that mention it. -/
def rawEurcOf (s : ContractState) (usdAmount : Nat) : Nat :=
  (usdAmount - usdAmount * s.buyFeeBps / 10000) * s.usdToEurRate / 1000000

/-- The spec's four-step estimate, §4.1 of spec.md, written from the
spec's words (explicit `fee1`/`fee2`/`fee3`, floor division on
non-negative integers is `Nat` division), to be compared with the
source's `calculateRemittanceEstimate`. -/
structure SpecEstimate where
  usdcAfterFee : Nat
  rawEurc : Nat
  eurcAfterSwap : Nat
  eurFinal : Nat
deriving DecidableEq, Repr

/-- Spec §4.1 steps 1-4: `fee1 = floor(usdAmount*buyFeeBps/10000)`,
`usdcAfterFee = usdAmount - fee1`;
`rawEurc = floor(usdcAfterFee*rate/1000000)`;
`fee2 = floor(rawEurc*swapFeeBps/10000)`, `eurcAfterSwap = rawEurc - fee2`;
`fee3 = floor(eurcAfterSwap*sellFeeBps/10000)`, `eurFinal = eurcAfterSwap - fee3`. -/
def estimateSpec (s : ContractState) (usdAmount : Nat) : SpecEstimate :=
  let fee1 := usdAmount * s.buyFeeBps / 10000
  let usdcAfterFee := usdAmount - fee1
  let rawEurc := usdcAfterFee * s.usdToEurRate / 1000000
  let fee2 := rawEurc * s.swapFeeBps / 10000
  let eurcAfterSwap := rawEurc - fee2
  let fee3 := eurcAfterSwap * s.sellFeeBps / 10000
  let eurFinal := eurcAfterSwap - fee3
  { usdcAfterFee := usdcAfterFee, rawEurc := rawEurc,
    eurcAfterSwap := eurcAfterSwap, eurFinal := eurFinal }

end RemittanceSimulator

namespace Dashboard

/-- Outcome objects returned by `executeRemittanceStep`
(dashboard.tsx lines 244-391).  `balanceSuccess` is
`{success: true, type: "balance_check", balance}`; `noSignatureSuccess`
is `{success: true, type: "no_signature_required"}`; `txSuccess` is
`{success: true, type: "transaction", hash, pending?, note?}` where an
absent `pending` key (falsy in JS) is `false` and an absent `note` is
`none`; `failure` is `{success: false, error, userRejected?}` where an
absent `userRejected` key is `false`. -/
inductive StepResult
  | balanceSuccess (balance : String)
  | noSignatureSuccess
  | txSuccess (hash : String) (pending : Bool) (note : Option String)
  | failure (error : String) (userRejected : Bool)
deriving DecidableEq, Repr

/-- Decides whether one character list starts with another
(the building block for the JS `String.prototype.includes` check). -/
def charsStartWith : List Char → List Char → Bool
  | [], _ => true
  | _ :: _, [] => false
  | a :: as, b :: bs => a == b && charsStartWith as bs

/-- Decides whether `needle` occurs contiguously inside `hay`. -/
def charsContain (needle : List Char) : List Char → Bool
  | [] => charsStartWith needle []
  | c :: rest => charsStartWith needle (c :: rest) || charsContain needle rest

/-- Model of JS `hay.includes(needle)`: contiguous substring test. -/
def strIncludes (hay needle : String) : Bool :=
  charsContain needle.data hay.data

/-- Rejection test of dashboard.tsx line 377:
`errorMessage.includes("user rejected") || errorMessage.includes("User denied")`. -/
def isUserRejection (errorMessage : String) : Bool :=
  strIncludes errorMessage "user rejected" || strIncludes errorMessage "User denied"

/-- Fixed notice shown for a user-declined signature (line 381). -/
def userRejectedNotice : String :=
  "Transaction was rejected in your wallet. Please try again."

/-- Model of the `catch` block of `executeRemittanceStep`
(lines 370-390): classify the raised error text into the user-rejection
failure or a generic failure carrying the raw message. -/
def executeStepFailure (errorMessage : String) : StepResult :=
  if isUserRejection errorMessage then StepResult.failure userRejectedNotice true
  else StepResult.failure errorMessage false

/-- Model of `checkTokenBalance` (lines 210-241): return the collaborator's
formatted balance, or "0" when the query raised. -/
def checkTokenBalance (balanceQuery : Except String String) : String :=
  match balanceQuery with
  | Except.ok formattedBalance => formattedBalance
  | Except.error _ => "0"

/-- Balance-check branch of `executeRemittanceStep` (lines 254-266):
always `{success: true, type: "balance_check", balance}`. -/
def executeBalanceCheck (balanceQuery : Except String String) : StepResult :=
  StepResult.balanceSuccess (checkTokenBalance balanceQuery)

/-- Result of the direct `provider.getTransaction(tx.hash)` lookup after
the 60000 ms confirmation timeout (lines 344-368): the transaction object
with its `blockNumber` field, `null` (not found), or a raised error. -/
inductive TxLookup
  | found (blockNumber : Option Nat)
  | notFound
  | errored (statusCheckError : String)
deriving DecidableEq, Repr

/-- JS truthiness of `latestStatus.blockNumber` (line 347):
`null`/`undefined` and `0` are falsy. -/
def blockNumberTruthy : Option Nat → Bool
  | some n => n != 0
  | none => false

/-- Note attached when the direct check confirms the transaction (line 353). -/
def directCheckNote : String := "Confirmed via direct check after timeout"

/-- Note attached when the transaction is still unconfirmed (line 362). -/
def timeoutNote : String :=
  "Transaction submitted but confirmation timed out. It may still complete later."

/-- Model of the timeout branch of `executeRemittanceStep`
(lines 338-368): after the 60000 ms wait loses the race, one direct
lookup decides the outcome; a lookup error is re-thrown with the
status-unknown message and lands in the outer `catch` (lines 365-368). -/
def confirmAfterTimeout (txHash : String) (timeoutMsg : String) (lookup : TxLookup) :
    StepResult :=
  match lookup with
  | TxLookup.found bn =>
      if blockNumberTruthy bn then StepResult.txSuccess txHash false (some directCheckNote)
      else StepResult.txSuccess txHash true (some timeoutNote)
  | TxLookup.notFound => StepResult.txSuccess txHash true (some timeoutNote)
  | TxLookup.errored _ =>
      executeStepFailure
        ("Transaction submitted (" ++ txHash ++ ") but confirmation status unknown: "
          ++ timeoutMsg)

/-- Values of the `type` field of `TransactionHistoryItem` (line 50). -/
inductive TxType
  | transfer
  | swap
  | buy
  | remittance
deriving DecidableEq, Repr

/-- Values of the `status` field of `TransactionHistoryItem` (line 51). -/
inductive TxStatus
  | pending
  | completed
  | failed
deriving DecidableEq, Repr

/-- The `data` payload of a history item (lines 52-63), all fields
optional as in the TypeScript interface. -/
structure TxData where
  transactionHash : Option String
  chain : Option String
  fromAsset : Option String
  toAsset : Option String
  amount : Option String
  recipientAddress : Option String
  orderId : Option String
  moonpayUrl : Option String
deriving DecidableEq, Repr

/-- Payload with every optional field absent. -/
def emptyTxData : TxData :=
  { transactionHash := none, chain := none, fromAsset := none, toAsset := none,
    amount := none, recipientAddress := none, orderId := none, moonpayUrl := none }

/-- A `TransactionHistoryItem` (lines 47-65). -/
structure TransactionHistoryItem where
  id : String
  timestamp : Nat
  typ : TxType
  status : TxStatus
  data : TxData
  message : String
deriving DecidableEq, Repr

/-- Model of `addTransactionToHistory` (lines 146-154): prepend the new
item and keep at most 10 entries, `[newItem, ...prev].slice(0, 10)`. -/
def addTransactionToHistory (history : List TransactionHistoryItem)
    (newItem : TransactionHistoryItem) : List TransactionHistoryItem :=
  (newItem :: history).take 10

/-- A `Partial<TransactionHistoryItem>` patch: each field possibly absent;
spreading `{...item, ...updates}` keeps `item`'s value where the patch
field is absent. -/
structure TxUpdates where
  id : Option String
  timestamp : Option Nat
  typ : Option TxType
  status : Option TxStatus
  data : Option TxData
  message : Option String
deriving DecidableEq, Repr

/-- JS object spread `{...item, ...updates}` for a partial patch. -/
def applyUpdates (item : TransactionHistoryItem) (updates : TxUpdates) :
    TransactionHistoryItem :=
  { id := updates.id.getD item.id,
    timestamp := updates.timestamp.getD item.timestamp,
    typ := updates.typ.getD item.typ,
    status := updates.status.getD item.status,
    data := updates.data.getD item.data,
    message := updates.message.getD item.message }

/-- Model of `updateTransactionInHistory` (lines 156-162): map over the
list, patching exactly the items whose `id` matches. -/
def updateTransactionInHistory (history : List TransactionHistoryItem) (id : String)
    (updates : TxUpdates) : List TransactionHistoryItem :=
  history.map fun item => if item.id == id then applyUpdates item updates else item

/-- What `processRemittanceFlow` presents after its step-validity clamp:
either the prompt for a step (with its Execute button), or the
"Remittance Complete" screen (lines 844-889). -/
inductive FlowPhase
  | promptStep (stepNumber : Nat)
  | flowComplete
deriving DecidableEq, Repr

/-- Model of the control part of `processRemittanceFlow`
(lines 468-890) on the step counter.  `forceStep` is the explicit step
argument; `persisted` is the `brinco_remittance_flow` record's `step`
field as the call begins (`none` when the record is absent).  Lines
481-490: a step outside `[1, totalSteps]` is reset to 1 and persisted.
Line 503: a step within bounds is presented for execution.  Lines
844-889: otherwise the completion screen is shown; note that this branch
does not itself clear the persisted record (only the Done button's click
handler, line 878, does). -/
def processRemittanceFlow (totalSteps : Nat) (forceStep : Nat) (persisted : Option Nat) :
    Option Nat × FlowPhase :=
  let (currentStep, persisted) :=
    if forceStep < 1 || totalSteps < forceStep then (1, some 1)
    else (forceStep, persisted)
  if currentStep ≤ totalSteps then (persisted, FlowPhase.promptStep currentStep)
  else (persisted, FlowPhase.flowComplete)

/-- Model of `processNextStep` (lines 446-465): persist the explicit next
step number, then run `processRemittanceFlow` forced to it. -/
def processNextStep (totalSteps : Nat) (nextStepNumber : Nat) : Option Nat × FlowPhase :=
  processRemittanceFlow totalSteps nextStepNumber (some nextStepNumber)

/-- A concrete history item, for evaluating the ledger operations. -/
def sampleItem (i : Nat) : TransactionHistoryItem :=
  { id := "tx", timestamp := i, typ := TxType.remittance,
    status := TxStatus.completed, data := emptyTxData, message := "step" }

/-- Fifteen concrete history items with timestamps 0..14. -/
def sampleItems : List TransactionHistoryItem := (List.range 15).map sampleItem

/-- A concrete two-entry starting history. -/
def sampleHistory : List TransactionHistoryItem := [sampleItem 0, sampleItem 1]

/-- A concrete partial patch touching status and message. -/
def samplePatch : TxUpdates :=
  { id := none, timestamp := none, typ := none,
    status := some TxStatus.failed, data := none, message := some "patched" }

end Dashboard

open RemittanceSimulator Dashboard

/-- C1: for every fee schedule and usdAmount, `calculateRemittanceEstimate`
returns exactly the triple of the spec's four-step truncating-integer
pipeline (with `rawEurc` the step-2 intermediate), and on the default
schedule (buyFeeBps 100, swapFeeBps 50, sellFeeBps 100, rate 920000) input
1000000 yields usdcAfterFee 990000, rawEurc 910800, eurcAfterSwap 906246,
eurFinal 897184. -/
theorem C1_estimate_follows_spec_pipeline :
    (∀ (s : ContractState) (usdAmount : Nat),
      (calculateRemittanceEstimate s usdAmount).usdcAfterFee
          = (estimateSpec s usdAmount).usdcAfterFee ∧
      (calculateRemittanceEstimate s usdAmount).eurcAfterSwap
          = (estimateSpec s usdAmount).eurcAfterSwap ∧
      (calculateRemittanceEstimate s usdAmount).eurFinal
          = (estimateSpec s usdAmount).eurFinal ∧
      rawEurcOf s usdAmount = (estimateSpec s usdAmount).rawEurc) ∧
    calculateRemittanceEstimate initState 1000000
        = { usdcAfterFee := 990000, eurcAfterSwap := 906246, eurFinal := 897184 } ∧
    rawEurcOf initState 1000000 = 910800 := by
  refine ⟨fun s usdAmount => ⟨rfl, rfl, rfl, rfl⟩, by decide, by decide⟩

/-- C2: whenever `processRemittance` succeeds on a positive usdAmount (all
intermediate transfers and mints succeeding), its `finalEurAmount` equals
the `eurFinal` component of `calculateRemittanceEstimate` at the same
amount and schedule. -/
theorem C2_process_matches_estimate (s : ContractState) (usdAmount : Nat)
    (hpos : 0 < usdAmount) (r : Nat)
    (hr : processRemittance s usdAmount = some r) :
    r = (calculateRemittanceEstimate s usdAmount).eurFinal := by
  have h0 : ¬ usdAmount = 0 := by omega
  simp only [processRemittance, buyUSDC, swapUSDCtoEURC, sellEURC, h0, if_false] at hr
  simp only [Option.some_bind] at hr
  split at hr
  · simp at hr
  · simp only [Option.some_bind] at hr
    split at hr
    · simp at hr
    · injection hr with h
      exact h.symm

/-- After-fee deduction is bounded by the amount itself when the bps do
not exceed the denominator. -/
lemma feePart_le {b M : Nat} (hb : b ≤ M) (hM : 0 < M) (n : Nat) : n * b / M ≤ n := by
  calc n * b / M ≤ n * M / M := Nat.div_le_div_right (Nat.mul_le_mul_left n hb)
    _ = n := Nat.mul_div_cancel n hM

/-- Deducting a truncated proportional fee is monotone in the amount when
the bps do not exceed the denominator. -/
lemma afterFee_mono {b M : Nat} (hb : b ≤ M) (hM : 0 < M) {m n : Nat} (h : m ≤ n) :
    m - m * b / M ≤ n - n * b / M := by
  have key : n * b / M ≤ m * b / M + (n - m) := by
    have h1 : n * b = m * b + (n - m) * b := by
      have hmn : m + (n - m) = n := by omega
      calc n * b = (m + (n - m)) * b := by rw [hmn]
        _ = m * b + (n - m) * b := Nat.add_mul m (n - m) b
    have h2 : m * b + (n - m) * b ≤ m * b + (n - m) * M :=
      Nat.add_le_add_left (Nat.mul_le_mul_left (n - m) hb) (m * b)
    calc n * b / M = (m * b + (n - m) * b) / M := by rw [h1]
      _ ≤ (m * b + (n - m) * M) / M := Nat.div_le_div_right h2
      _ = m * b / M + (n - m) := Nat.add_mul_div_right (m * b) (n - m) hM
  have hm : m * b / M ≤ m := feePart_le hb hM m
  have hn : n * b / M ≤ n := feePart_le hb hM n
  generalize m * b / M = x at key hm
  generalize n * b / M = y at key hn
  omega

/-- Truncating fixed-point rate conversion is monotone. -/
lemma rateConv_mono {r D : Nat} {m n : Nat} (h : m ≤ n) : m * r / D ≤ n * r / D :=
  Nat.div_le_div_right (Nat.mul_le_mul_right r h)

/-- C5: with all three bps fields in [0,1000], every output of
`calculateRemittanceEstimate` (and the `rawEurc` intermediate) is
monotone non-decreasing in usdAmount, and the rate-adjusted chain
eurFinal ≤ eurcAfterSwap ≤ rawEurc, rawEurc·10⁶ ≤ usdcAfterFee·rate,
usdcAfterFee ≤ usdAmount holds. -/
theorem C5_estimate_monotone_and_chain (s : ContractState)
    (hb : s.buyFeeBps ≤ 1000) (hsw : s.swapFeeBps ≤ 1000) (hse : s.sellFeeBps ≤ 1000)
    (u v : Nat) (huv : u ≤ v) :
    ((calculateRemittanceEstimate s u).usdcAfterFee
        ≤ (calculateRemittanceEstimate s v).usdcAfterFee ∧
      rawEurcOf s u ≤ rawEurcOf s v ∧
      (calculateRemittanceEstimate s u).eurcAfterSwap
        ≤ (calculateRemittanceEstimate s v).eurcAfterSwap ∧
      (calculateRemittanceEstimate s u).eurFinal
        ≤ (calculateRemittanceEstimate s v).eurFinal) ∧
    ((calculateRemittanceEstimate s u).eurFinal
        ≤ (calculateRemittanceEstimate s u).eurcAfterSwap ∧
      (calculateRemittanceEstimate s u).eurcAfterSwap ≤ rawEurcOf s u ∧
      rawEurcOf s u * 1000000 ≤ (calculateRemittanceEstimate s u).usdcAfterFee * s.usdToEurRate ∧
      (calculateRemittanceEstimate s u).usdcAfterFee ≤ u) := by
  have hb10 : s.buyFeeBps ≤ 10000 := by omega
  have hsw10 : s.swapFeeBps ≤ 10000 := by omega
  have hse10 : s.sellFeeBps ≤ 10000 := by omega
  have hM : (0:Nat) < 10000 := by norm_num
  have h1 : u - u * s.buyFeeBps / 10000 ≤ v - v * s.buyFeeBps / 10000 :=
    afterFee_mono hb10 hM huv
  have h2 : rawEurcOf s u ≤ rawEurcOf s v := rateConv_mono h1
  have h3 : (calculateRemittanceEstimate s u).eurcAfterSwap
      ≤ (calculateRemittanceEstimate s v).eurcAfterSwap := afterFee_mono hsw10 hM h2
  have h4 : (calculateRemittanceEstimate s u).eurFinal
      ≤ (calculateRemittanceEstimate s v).eurFinal := afterFee_mono hse10 hM h3
  refine ⟨⟨h1, h2, h3, h4⟩, Nat.sub_le _ _, Nat.sub_le _ _, ?_, Nat.sub_le _ _⟩
  exact Nat.div_mul_le_self ((u - u * s.buyFeeBps / 10000) * s.usdToEurRate) 1000000

/-- Witness for C5: the hypotheses hold at the default schedule with
amounts 500000 ≤ 1000000, and the instantiated conclusion evaluates. -/
theorem C5_estimate_monotone_and_chain_witness :
    (initState.buyFeeBps ≤ 1000 ∧ initState.swapFeeBps ≤ 1000 ∧
      initState.sellFeeBps ≤ 1000 ∧ (500000:Nat) ≤ 1000000) ∧
    (((calculateRemittanceEstimate initState 500000).usdcAfterFee
        ≤ (calculateRemittanceEstimate initState 1000000).usdcAfterFee ∧
      rawEurcOf initState 500000 ≤ rawEurcOf initState 1000000 ∧
      (calculateRemittanceEstimate initState 500000).eurcAfterSwap
        ≤ (calculateRemittanceEstimate initState 1000000).eurcAfterSwap ∧
      (calculateRemittanceEstimate initState 500000).eurFinal
        ≤ (calculateRemittanceEstimate initState 1000000).eurFinal) ∧
    ((calculateRemittanceEstimate initState 500000).eurFinal
        ≤ (calculateRemittanceEstimate initState 500000).eurcAfterSwap ∧
      (calculateRemittanceEstimate initState 500000).eurcAfterSwap ≤ rawEurcOf initState 500000 ∧
      rawEurcOf initState 500000 * 1000000
        ≤ (calculateRemittanceEstimate initState 500000).usdcAfterFee * initState.usdToEurRate ∧
      (calculateRemittanceEstimate initState 500000).usdcAfterFee ≤ 500000)) :=
  ⟨⟨by decide, by decide, by decide, by decide⟩,
    C5_estimate_monotone_and_chain initState (by decide) (by decide) (by decide)
      500000 1000000 (by decide)⟩

/-- Helper: a successful `updateFees` call had all proposals within
bound and installed them. -/
lemma updateFees_some {s s' : ContractState} {a b c : Nat}
    (h : updateFees s a b c = some s') :
    a ≤ 1000 ∧ b ≤ 1000 ∧ c ≤ 1000 ∧
      s'.buyFeeBps = a ∧ s'.swapFeeBps = b ∧ s'.sellFeeBps = c := by
  unfold updateFees at h
  split at h
  · cases h
  · split at h
    · cases h
    · split at h
      · cases h
      · injection h with h'
        subst h'
        exact ⟨by omega, by omega, by omega, rfl, rfl, rfl⟩

/-- C6: every reachable contract state keeps all three bps fields at most
1000 (the initial values satisfy the bound), and `updateFees` reverts,
leaving the fields unchanged, whenever any proposed value exceeds 1000. -/
theorem C6_fee_bound_invariant :
    (∀ s : ContractState, Reachable s →
      s.buyFeeBps ≤ 1000 ∧ s.swapFeeBps ≤ 1000 ∧ s.sellFeeBps ≤ 1000) ∧
    (∀ (s : ContractState) (a b c : Nat), 1000 < a ∨ 1000 < b ∨ 1000 < c →
      updateFees s a b c = none) := by
  constructor
  · intro s h
    induction h with
    | init => exact ⟨by decide, by decide, by decide⟩
    | rate r _ ih => exact ih
    | fees _ hupd ih =>
        obtain ⟨ha, hb, hc, e1, e2, e3⟩ := updateFees_some hupd
        exact ⟨by omega, by omega, by omega⟩
  · intro s a b c h
    unfold updateFees
    split
    · rfl
    · split
      · rfl
      · split
        · rfl
        · exfalso; omega

/-- Witness for C6: the initial state is reachable and within bound, and
a concrete over-limit `updateFees` call is rejected. -/
theorem C6_fee_bound_invariant_witness :
    (initState.buyFeeBps ≤ 1000 ∧ initState.swapFeeBps ≤ 1000 ∧
      initState.sellFeeBps ≤ 1000) ∧
    updateFees initState 1001 50 100 = none :=
  ⟨C6_fee_bound_invariant.1 initState Reachable.init,
    C6_fee_bound_invariant.2 initState 1001 50 100 (Or.inl (by decide))⟩

/-- C3 (code bug): advancing after the final step of a 3-step flow calls
`processNextStep` with step 4; the spec says the flow transitions to
Completed and the persisted state is cleared, but the validity clamp of
`processRemittanceFlow` (dashboard.tsx lines 481-490) treats 4 > 3 as a
corrupt index, resets to step 1, persists step 1 and re-prompts step 1;
the completion branch (lines 844-889) is unreachable for any flow with at
least one step, and the persisted record survives. -/
theorem C3_final_advance_resets_to_step_one :
    processNextStep 3 4 = (some 1, FlowPhase.promptStep 1) ∧
    (processNextStep 3 4).2 ≠ FlowPhase.flowComplete ∧
    (processNextStep 3 4).1 ≠ none := by
  refine ⟨rfl, by decide, by decide⟩

/-- C4: once the 60000 ms confirmation wait has timed out, the one direct
ledger lookup decides the outcome: a transaction with a (non-zero, JS
truthy) blockNumber yields a non-pending success; a transaction found
without a blockNumber, or not found at all, yields a success with
pending = true — never a terminal failure. -/
theorem C4_timeout_lookup_outcomes (txHash timeoutMsg : String) :
    (∀ bn : Nat, bn ≠ 0 →
      confirmAfterTimeout txHash timeoutMsg (TxLookup.found (some bn))
        = StepResult.txSuccess txHash false (some directCheckNote)) ∧
    confirmAfterTimeout txHash timeoutMsg (TxLookup.found none)
        = StepResult.txSuccess txHash true (some timeoutNote) ∧
    confirmAfterTimeout txHash timeoutMsg TxLookup.notFound
        = StepResult.txSuccess txHash true (some timeoutNote) := by
  refine ⟨fun bn hbn => ?_, rfl, rfl⟩
  simp [confirmAfterTimeout, blockNumberTruthy, hbn]

/-- Witness for C4 at a concrete hash, timeout message and block number. -/
theorem C4_timeout_lookup_outcomes_witness :
    ((5:Nat) ≠ 0) ∧
    confirmAfterTimeout "0xabc" "Transaction confirmation timeout after 60 seconds"
        (TxLookup.found (some 5))
      = StepResult.txSuccess "0xabc" false (some directCheckNote) ∧
    confirmAfterTimeout "0xabc" "Transaction confirmation timeout after 60 seconds"
        TxLookup.notFound
      = StepResult.txSuccess "0xabc" true (some timeoutNote) :=
  ⟨by decide,
    (C4_timeout_lookup_outcomes "0xabc"
      "Transaction confirmation timeout after 60 seconds").1 5 (by decide),
    (C4_timeout_lookup_outcomes "0xabc"
      "Transaction confirmation timeout after 60 seconds").2.2⟩

/-- C7: a balance-check step whose collaborator query raises returns the
successful balance-check outcome with balance "0"; a balance step never
produces a Failure outcome. -/
theorem C7_balance_error_is_nonfatal :
    (∀ errMsg : String,
      executeBalanceCheck (Except.error errMsg) = StepResult.balanceSuccess "0") ∧
    (∀ (balanceQuery : Except String String) (msg : String) (ur : Bool),
      executeBalanceCheck balanceQuery ≠ StepResult.failure msg ur) := by
  constructor
  · intro errMsg; rfl
  · intro balanceQuery msg ur h
    cases balanceQuery <;> simp [executeBalanceCheck, checkTokenBalance] at h

/-- C8: an error raised in a signed-transaction step whose text indicates
user rejection yields Failure with userRejected = true (and the fixed
notice); any other error text yields Failure with userRejected falsy and
the raw message preserved; the two classes are disjoint. -/
theorem C8_failure_classification (errorMessage : String) :
    (isUserRejection errorMessage = true →
      executeStepFailure errorMessage = StepResult.failure userRejectedNotice true) ∧
    (isUserRejection errorMessage = false →
      executeStepFailure errorMessage = StepResult.failure errorMessage false) ∧
    (∀ e1 e2 : String, StepResult.failure e1 true ≠ StepResult.failure e2 false) := by
  refine ⟨fun h => ?_, fun h => ?_, fun e1 e2 h => by simp at h⟩
  · simp [executeStepFailure, h]
  · simp [executeStepFailure, h]

/-- Witness for C8 on a rejection text and a generic text. -/
theorem C8_failure_classification_witness :
    isUserRejection "MetaMask Tx Signature: User denied transaction signature." = true ∧
    executeStepFailure "MetaMask Tx Signature: User denied transaction signature."
      = StepResult.failure userRejectedNotice true ∧
    isUserRejection "insufficient funds for gas" = false ∧
    executeStepFailure "insufficient funds for gas"
      = StepResult.failure "insufficient funds for gas" false :=
  ⟨by decide,
    (C8_failure_classification
      "MetaMask Tx Signature: User denied transaction signature.").1 (by decide),
    by decide,
    (C8_failure_classification "insufficient funds for gas").2.1 (by decide)⟩

/-- Helper: taking `n` of an append is unchanged when the right part is
pre-truncated to `n`. -/
lemma take_append_take {α : Type} (a l : List α) (n : Nat) :
    (a ++ l.take n).take n = (a ++ l).take n := by
  rw [List.take_append_eq_append_take, List.take_append_eq_append_take, List.take_take,
    Nat.min_eq_left (Nat.sub_le n a.length)]

/-- Helper: folding a nonempty batch of insertions through the bounded
prepend leaves the last-10 window of the reversed batch over the old
history. -/
lemma foldl_addTransaction (es : List TransactionHistoryItem)
    (h : List TransactionHistoryItem) (hne : es ≠ []) :
    es.foldl addTransactionToHistory h = (es.reverse ++ h).take 10 := by
  induction es generalizing h with
  | nil => cases hne rfl
  | cons e es ih =>
      rw [List.foldl_cons]
      cases es with
      | nil => simp [addTransactionToHistory]
      | cons e2 es2 =>
          rw [ih (addTransactionToHistory h e) (by simp)]
          simp only [addTransactionToHistory]
          rw [take_append_take]
          congr 1
          simp

/-- C9: the history ledger is a most-recent-first bounded list: inserting
15 entries into any starting history leaves exactly the 10 most recently
inserted entries, most recent first (the reversed insertion batch,
truncated to 10), with everything older evicted. -/
theorem C9_history_eviction (h : List TransactionHistoryItem)
    (es : List TransactionHistoryItem) (hlen : es.length = 15) :
    es.foldl addTransactionToHistory h = es.reverse.take 10 ∧
    (es.foldl addTransactionToHistory h).length = 10 := by
  have hne : es ≠ [] := by
    intro he
    rw [he] at hlen
    simp at hlen
  have h1 : es.foldl addTransactionToHistory h = (es.reverse ++ h).take 10 :=
    foldl_addTransaction es h hne
  have h2 : (es.reverse ++ h).take 10 = es.reverse.take 10 :=
    List.take_append_of_le_length (by simp [hlen])
  refine ⟨h1.trans h2, ?_⟩
  rw [h1, h2, List.length_take]
  simp [hlen]

/-- Witness for C9: fifteen concrete items folded into a concrete
starting history. -/
theorem C9_history_eviction_witness :
    sampleItems.length = 15 ∧
    (sampleItems.foldl addTransactionToHistory [sampleItem 99]
        = sampleItems.reverse.take 10 ∧
      (sampleItems.foldl addTransactionToHistory [sampleItem 99]).length = 10) :=
  ⟨by decide, C9_history_eviction [sampleItem 99] sampleItems (by decide)⟩

/-- C10: patching an id that matches no entry leaves the history exactly
unchanged — `updateTransactionInHistory` never inserts, and entries with
a different id are untouched. -/
theorem C10_update_absent_id_is_noop (history : List TransactionHistoryItem)
    (id : String) (updates : TxUpdates)
    (habs : ∀ item ∈ history, item.id ≠ id) :
    updateTransactionInHistory history id updates = history := by
  unfold updateTransactionInHistory
  have hcong : ∀ item ∈ history,
      (if item.id == id then applyUpdates item updates else item) = item := by
    intro item hm
    have hne : ¬ (item.id == id) = true := by simp [habs item hm]
    rw [if_neg hne]
  rw [List.map_congr_left hcong]
  simp

/-- Witness for C10: a concrete patch under an id absent from a concrete
two-entry history leaves it unchanged. -/
theorem C10_update_absent_id_is_noop_witness :
    (∀ item ∈ sampleHistory, item.id ≠ "missing") ∧
    updateTransactionInHistory sampleHistory "missing" samplePatch = sampleHistory :=
  ⟨by decide,
    C10_update_absent_id_is_noop sampleHistory "missing" samplePatch (by decide)⟩

/-- Witness for C2: on the default schedule, processing 1000000 settles
at the estimated 897184. -/
theorem C2_process_matches_estimate_witness :
    (0:Nat) < 1000000 ∧
    processRemittance initState 1000000 = some 897184 ∧
    897184 = (calculateRemittanceEstimate initState 1000000).eurFinal :=
  ⟨by decide, by decide,
    C2_process_matches_estimate initState 1000000 (by decide) 897184 (by decide)⟩
